import Mathlib

/-!
Shallow embedding of the panel/cut CSG core of the repository:
  - src/src/models/panel.js        (createPanelGeometry)
  - src/src/models/circularCut.js  (createCylinderGeometryForHole)
  - src/src/models/rectangularCut.js (createBoxGeometryForRectangularCut)
  - src/src/csg/CSGManager.ts      (CSGManager.applyCuts)
  - src/materials.js               (materials table)

Modelling conventions:
  - JS numbers are modelled as ℚ (the claims are not float-sensitive).
  - A JS object field that may be absent is an `Option` field; ES
    destructuring defaults (`const { radius = 10 } = params`) become
    `Option.getD`.
  - `console.warn` is modelled writer-style: each function returns its
    value paired with the list of warnings it emitted, in order.
  - THREE.BufferGeometry bounding volumes start out absent (null in
    three.js) and are attached only by computeBoundingBox /
    computeBoundingSphere, exactly as in three.js.
  - The boolean evaluator of the external library three-bvh-csg
    (`evaluator.evaluate(a, b, SUBTRACTION)`) is modelled as the free
    constructor `CSGSolid.subtraction`: the library is an external
    dependency, so its output is kept abstract as a syntax tree of the
    operations performed on it.
  - `geometry.computeVertexNormals()` recomputes shading normals only;
    it never changes vertex positions, so it is modelled as a flag on
    the resulting mesh.
-/

namespace ThreeCSG

/-- Axis-aligned bounding box, as attached by
THREE.BufferGeometry.computeBoundingBox. -/
structure Box3 where
  minX : ℚ
  minY : ℚ
  minZ : ℚ
  maxX : ℚ
  maxY : ℚ
  maxZ : ℚ
deriving DecidableEq

/-- Bounding sphere, as attached by
THREE.BufferGeometry.computeBoundingSphere.  The radius is stored
squared so that the value stays rational; no claim compares sphere
radii, only their presence. -/
structure BSphere where
  centerX : ℚ
  centerY : ℚ
  centerZ : ℚ
  radiusSq : ℚ
deriving DecidableEq

/-- The constructor data of the two THREE geometry species the code
builds.  `box width height depth` is THREE.BoxGeometry(width, height,
depth); `cylinder rt rb h seg` is THREE.CylinderGeometry(radiusTop,
radiusBottom, height, radialSegments). -/
inductive GeometryKind where
  | box (width height depth : ℚ) : GeometryKind
  | cylinder (radiusTop radiusBottom height segments : ℚ) : GeometryKind
deriving DecidableEq

/-- A THREE.BufferGeometry: its constructor data plus its (initially
absent) bounding volumes. -/
structure BufferGeometry where
  kind : GeometryKind
  boundingBox : Option Box3
  boundingSphere : Option BSphere
deriving DecidableEq

/-- new THREE.BoxGeometry(width, height, depth): bounding volumes are
null until computed. -/
def BoxGeometry (width height depth : ℚ) : BufferGeometry :=
  ⟨GeometryKind.box width height depth, none, none⟩

/-- new THREE.CylinderGeometry(radiusTop, radiusBottom, height,
radialSegments): bounding volumes are null until computed. -/
def CylinderGeometry (radiusTop radiusBottom height segments : ℚ) : BufferGeometry :=
  ⟨GeometryKind.cylinder radiusTop radiusBottom height segments, none, none⟩

/-- The axis-aligned bounds of a geometry.  For a box this is exact.
For a cylinder the ideal cylinder bounds are used (three.js takes the
bounds of the tessellated vertices, which lie on the ideal cylinder;
no claim depends on the cylinder's bounding values, only on their
presence). -/
def GeometryKind.aabb : GeometryKind → Box3
  | GeometryKind.box w h d => ⟨-(w / 2), -(h / 2), -(d / 2), w / 2, h / 2, d / 2⟩
  | GeometryKind.cylinder rt rb h _ =>
      ⟨-(max rt rb), -(h / 2), -(max rt rb), max rt rb, h / 2, max rt rb⟩

/-- The bounding sphere of a geometry (radius squared, see BSphere). -/
def GeometryKind.bsphere : GeometryKind → BSphere
  | GeometryKind.box w h d => ⟨0, 0, 0, (w / 2) ^ 2 + (h / 2) ^ 2 + (d / 2) ^ 2⟩
  | GeometryKind.cylinder rt rb h _ => ⟨0, 0, 0, (max rt rb) ^ 2 + (h / 2) ^ 2⟩

/-- geometry.computeBoundingBox(). -/
def computeBoundingBox (g : BufferGeometry) : BufferGeometry :=
  { g with boundingBox := some g.kind.aabb }

/-- geometry.computeBoundingSphere(). -/
def computeBoundingSphere (g : BufferGeometry) : BufferGeometry :=
  { g with boundingSphere := some g.kind.bsphere }

/-- The pair of calls `geometry.computeBoundingBox();
geometry.computeBoundingSphere();` that ends each generator's normal
path. -/
def withBounds (g : BufferGeometry) : BufferGeometry :=
  computeBoundingSphere (computeBoundingBox g)

/-- The params object handed to a cut generator (`params: any` in
CSGManager).  Each generator destructures only the fields it uses;
absent fields are `none`. -/
structure CutParams where
  radius : Option ℚ := none
  depth : Option ℚ := none
  segments : Option ℚ := none
  length : Option ℚ := none
  width : Option ℚ := none
deriving DecidableEq

/-- The panel record: the three dimensions (absent fields are `none`,
matching JS) and the material id. -/
structure PanelConfig where
  length : Option ℚ := none
  width : Option ℚ := none
  thickness : Option ℚ := none
  material : String := ""
deriving DecidableEq

/-- createPanelGeometry from src/models/panel.js: destructure with
defaults 200/100/18, warn and return BoxGeometry(200, 18, 100) on any
non-positive dimension (without bounding volumes), otherwise build
BoxGeometry(length, thickness, width) and compute its bounds. -/
def createPanelGeometry (params : PanelConfig) : BufferGeometry × List String :=
  let length := params.length.getD 200
  let width := params.width.getD 100
  let thickness := params.thickness.getD 18
  if length ≤ 0 ∨ width ≤ 0 ∨ thickness ≤ 0 then
    (BoxGeometry 200 18 100, ["Les dimensions du panneau doivent être positives"])
  else
    (withBounds (BoxGeometry length thickness width), [])

/-- createCylinderGeometryForHole from src/models/circularCut.js:
destructure with defaults 10/20/32, then the three validation branches
in source order (each returning early, without bounding volumes),
otherwise build the cylinder and compute its bounds. -/
def createCylinderGeometryForHole (params : CutParams) : BufferGeometry × List String :=
  let radius := params.radius.getD 10
  let depth := params.depth.getD 20
  let segments := params.segments.getD 32
  if radius ≤ 0 then
    (CylinderGeometry 10 10 20 32, ["Le rayon doit être positif"])
  else if depth ≤ 0 then
    (CylinderGeometry radius radius 20 segments, ["La profondeur doit être positive"])
  else if segments < 3 then
    (CylinderGeometry radius radius depth 32, ["Le nombre de segments doit être au minimum 3"])
  else
    (withBounds (CylinderGeometry radius radius depth segments), [])

/-- createBoxGeometryForRectangularCut from src/models/rectangularCut.js:
destructure with defaults 50/30/20, warn and return BoxGeometry(50, 20,
30) on any non-positive dimension (without bounding volumes), otherwise
build BoxGeometry(length, depth, width) and compute its bounds. -/
def createBoxGeometryForRectangularCut (params : CutParams) : BufferGeometry × List String :=
  let length := params.length.getD 50
  let width := params.width.getD 30
  let depth := params.depth.getD 20
  if length ≤ 0 ∨ width ≤ 0 ∨ depth ≤ 0 then
    (BoxGeometry 50 20 30, ["Les dimensions de la découpe doivent être positives"])
  else
    (withBounds (BoxGeometry length depth width), [])

/-- An entry of the materials table of src/materials.js. -/
structure Material where
  color : ℕ
  name : String
deriving DecidableEq

/-- materials.pine. -/
def pineMaterial : Material := ⟨0xdeb887, "Pin"⟩

/-- The materials table of src/materials.js, as the partial map
`id ↦ materials[id]`. -/
def materials : String → Option Material := fun id =>
  if id = "pine" then some pineMaterial
  else if id = "oak" then some ⟨0x8b4513, "Chêne"⟩
  else if id = "birch" then some ⟨0xf5deb3, "Bouleau"⟩
  else if id = "mdf" then some ⟨0xd2b48c, "MDF"⟩
  else if id = "plywood" then some ⟨0xdaa520, "Contreplaqué"⟩
  else if id = "melamine" then some ⟨0xffffff, "Mélaminé"⟩
  else none

/-- A possibly partially-specified vector, as in CutConfig's
`position?: { x?, y?, z? }`. -/
structure Vec3Opt where
  x : Option ℚ := none
  y : Option ℚ := none
  z : Option ℚ := none
deriving DecidableEq

/-- One entry of PanelCSGConfig.cuts (interface CutConfig in
CSGManager.ts).  `type` is a plain string at runtime: the evaluator
dispatches on it and skips anything unrecognized. -/
structure CutConfig where
  type : String
  params : CutParams := {}
  position : Option Vec3Opt := none
  rotation : Option Vec3Opt := none
deriving DecidableEq

/-- The configuration record CSGManager.applyCuts receives
(interface PanelCSGConfig). -/
structure PanelCSGConfig where
  panel : PanelConfig
  cuts : List CutConfig
deriving DecidableEq

/-- A three-bvh-csg Brush: a geometry placed by a position and an Euler
rotation (`new Brush(g)` then optional position.set / rotation.set). -/
structure Brush where
  geometry : BufferGeometry
  px : ℚ
  py : ℚ
  pz : ℚ
  rx : ℚ
  ry : ℚ
  rz : ℚ
deriving DecidableEq

/-- The brush built for one cut inside the applyCuts loop: position and
rotation default to 0 per axis (`cut.position.x || 0` etc.; for a
rational value this is `Option.getD 0`). -/
def cutBrushOf (cut : CutConfig) (g : BufferGeometry) : Brush :=
  { geometry := g
    px := (cut.position.getD {}).x.getD 0
    py := (cut.position.getD {}).y.getD 0
    pz := (cut.position.getD {}).z.getD 0
    rx := (cut.rotation.getD {}).x.getD 0
    ry := (cut.rotation.getD {}).y.getD 0
    rz := (cut.rotation.getD {}).z.getD 0 }

/-- The running accumulator of the applyCuts loop.  `brush g` is the
initial main brush holding the panel geometry; `subtraction s b` is one
`evaluator.evaluate(s, b, SUBTRACTION)` step of the external boolean
library, kept abstract as a constructor. -/
inductive CSGSolid where
  | brush (geometry : BufferGeometry) : CSGSolid
  | subtraction (acc : CSGSolid) (cut : Brush) : CSGSolid
deriving DecidableEq

/-- The `for (const cut of config.cuts)` loop of applyCuts: dispatch on
cut.type, build the cut brush and subtract it, or warn and `continue`
on an unrecognized type.  Returns the final accumulator and the
warnings emitted by the loop (generator warnings included). -/
def applyCutsLoop : CSGSolid → List CutConfig → CSGSolid × List String
  | s, [] => (s, [])
  | s, cut :: rest =>
    if cut.type = "circular" then
      let g := createCylinderGeometryForHole cut.params
      let r := applyCutsLoop (CSGSolid.subtraction s (cutBrushOf cut g.1)) rest
      (r.1, g.2 ++ r.2)
    else if cut.type = "rectangular" then
      let g := createBoxGeometryForRectangularCut cut.params
      let r := applyCutsLoop (CSGSolid.subtraction s (cutBrushOf cut g.1)) rest
      (r.1, g.2 ++ r.2)
    else
      let r := applyCutsLoop s rest
      (r.1, ("Type de découpe non reconnu: " ++ cut.type) :: r.2)

/-- The THREE.Mesh returned by applyCuts: the final solid, the display
material's colour and flags, and the fact that vertex normals were
recomputed once at the end (normals never change vertex positions). -/
structure Mesh where
  solid : CSGSolid
  color : ℕ
  transparent : Bool
  opacity : ℚ
  normalsComputed : Bool
  castShadow : Bool
  receiveShadow : Bool
deriving DecidableEq

/-- CSGManager.applyCuts from src/csg/CSGManager.ts: build the panel
geometry, resolve the material (`materials[id] || materials.pine`),
fold the cuts, recompute normals, set the shadow flags.  Returns the
mesh paired with every warning emitted during the run. -/
def applyCuts (config : PanelCSGConfig) : Mesh × List String :=
  let pg := createPanelGeometry config.panel
  let selectedMaterial := (materials config.panel.material).getD pineMaterial
  let res := applyCutsLoop (CSGSolid.brush pg.1) config.cuts
  ({ solid := res.1
     color := selectedMaterial.color
     transparent := true
     opacity := 9 / 10
     normalsComputed := true
     castShadow := true
     receiveShadow := true }, pg.2 ++ res.2)

/-- The cylinder generator's validation predicate, after ES defaulting:
the disjunction of its three warning branches. -/
def cylinderInvalid (p : CutParams) : Prop :=
  p.radius.getD 10 ≤ 0 ∨ p.depth.getD 20 ≤ 0 ∨ p.segments.getD 32 < 3

/-- The rectangular-cut generator's validation predicate, after ES
defaulting. -/
def rectInvalid (p : CutParams) : Prop :=
  p.length.getD 50 ≤ 0 ∨ p.width.getD 30 ≤ 0 ∨ p.depth.getD 20 ≤ 0

/-- The panel generator's validation predicate, after ES defaulting. -/
def panelInvalid (p : PanelConfig) : Prop :=
  p.length.getD 200 ≤ 0 ∨ p.width.getD 100 ≤ 0 ∨ p.thickness.getD 18 ≤ 0

instance (p : CutParams) : Decidable (cylinderInvalid p) := by
  unfold cylinderInvalid; infer_instance

instance (p : CutParams) : Decidable (rectInvalid p) := by
  unfold rectInvalid; infer_instance

instance (p : PanelConfig) : Decidable (panelInvalid p) := by
  unfold panelInvalid; infer_instance

/-- Whether a geometry was built by the box constructor. -/
def BufferGeometry.isBox (g : BufferGeometry) : Bool :=
  match g.kind with
  | GeometryKind.box _ _ _ => true
  | GeometryKind.cylinder _ _ _ _ => false

/-- Whether a geometry was built by the cylinder constructor. -/
def BufferGeometry.isCylinder (g : BufferGeometry) : Bool :=
  match g.kind with
  | GeometryKind.box _ _ _ => false
  | GeometryKind.cylinder _ _ _ _ => true

/-! ## Theorems -/

/-- C1, as stated, is false: on the depth≤0 branch the source returns
`new THREE.CylinderGeometry(radius, radius, 20, segments)` with the
caller's `segments`, not the default 32.  At radius=5, depth=0,
segments=16 the result is the 16-segment cylinder and differs from the
32-segment one the claim requires. -/
theorem C1_counterexample_caller_segments :
    (createCylinderGeometryForHole { radius := some 5, depth := some 0, segments := some 16 }).1
      = CylinderGeometry 5 5 20 16
    ∧ (createCylinderGeometryForHole { radius := some 5, depth := some 0, segments := some 16 }).1
      ≠ CylinderGeometry 5 5 20 32 :=
  ⟨rfl, by decide⟩

/-- C1 (amended): for radius > 0 and depth ≤ 0, the function warns and
returns a cylinder using the given radius, the default depth 20, and
the segments value taken from the params (the caller's value, 32 only
when the field is omitted); this branch returns before the bounding
volumes are computed. -/
theorem C1_depth_fallback (p : CutParams) (r d : ℚ)
    (hr : p.radius = some r) (hrpos : 0 < r)
    (hd : p.depth = some d) (hdle : d ≤ 0) :
    createCylinderGeometryForHole p
      = (CylinderGeometry r r 20 (p.segments.getD 32), ["La profondeur doit être positive"]) := by
  simp only [createCylinderGeometryForHole, hr, hd, Option.getD_some]
  rw [if_neg (not_le.mpr hrpos), if_pos hdle]

/-- Witness for C1_depth_fallback at radius=5, depth=0, segments=16. -/
theorem C1_depth_fallback_witness :
    createCylinderGeometryForHole { radius := some 5, depth := some 0, segments := some 16 }
      = (CylinderGeometry 5 5 20 16, ["La profondeur doit être positive"]) := by
  simpa using
    C1_depth_fallback { radius := some 5, depth := some 0, segments := some 16 }
      5 0 rfl (by decide) rfl (by decide)

/-- C2, as stated, is false: the invalid-parameter fallback branches
return early, before the computeBoundingBox/computeBoundingSphere
calls, so the fallback solid has absent (null) bounding volumes.
Concretely, radius=0 yields the default cylinder with both bounding
volumes absent. -/
theorem C2_counterexample_fallback_bounds :
    (createCylinderGeometryForHole { radius := some 0 }).1.boundingBox = none
    ∧ (createCylinderGeometryForHole { radius := some 0 }).1.boundingSphere = none := by
  decide

/-- C2 (amended): each generator computes both bounding volumes exactly
on its warning-free (valid-parameter) path; the fallback (warned)
solids are returned with absent bounding volumes. -/
theorem C2_bounds_iff_no_warning (pp : PanelConfig) (cp rp : CutParams) :
    ((createPanelGeometry pp).1.boundingBox.isSome = true
        ∧ (createPanelGeometry pp).1.boundingSphere.isSome = true
      ↔ (createPanelGeometry pp).2 = [])
    ∧ ((createCylinderGeometryForHole cp).1.boundingBox.isSome = true
        ∧ (createCylinderGeometryForHole cp).1.boundingSphere.isSome = true
      ↔ (createCylinderGeometryForHole cp).2 = [])
    ∧ ((createBoxGeometryForRectangularCut rp).1.boundingBox.isSome = true
        ∧ (createBoxGeometryForRectangularCut rp).1.boundingSphere.isSome = true
      ↔ (createBoxGeometryForRectangularCut rp).2 = []) := by
  refine ⟨?_, ?_, ?_⟩
  · simp only [createPanelGeometry]
    split <;>
      simp [withBounds, computeBoundingBox, computeBoundingSphere, BoxGeometry]
  · simp only [createCylinderGeometryForHole]
    split
    · simp [CylinderGeometry]
    · split
      · simp [CylinderGeometry]
      · split <;>
          simp [withBounds, computeBoundingBox, computeBoundingSphere, CylinderGeometry]
  · simp only [createBoxGeometryForRectangularCut]
    split <;>
      simp [withBounds, computeBoundingBox, computeBoundingSphere, BoxGeometry]

/-- C3: applying an empty cut list leaves the accumulator untouched, so
the returned mesh's solid is exactly the brush holding the very
geometry object produced by the panel generator — in particular its
vertices are identical, vertex-for-vertex, to the raw panel solid. -/
theorem C3_empty_cuts_identity (panel : PanelConfig) :
    (applyCuts { panel := panel, cuts := [] }).1.solid
      = CSGSolid.brush (createPanelGeometry panel).1 :=
  rfl

/-- Helper for C4: inside the applyCuts loop, an entry whose type is
neither circular nor rectangular only emits the diagnostic and is
skipped: the accumulated solid is the one obtained with the entry
removed. -/
theorem applyCutsLoop_skips_unrecognized (pre : List CutConfig) (s : CSGSolid)
    (post : List CutConfig) (bad : CutConfig)
    (h1 : bad.type ≠ "circular") (h2 : bad.type ≠ "rectangular") :
    (applyCutsLoop s (pre ++ bad :: post)).1 = (applyCutsLoop s (pre ++ post)).1
    ∧ ("Type de découpe non reconnu: " ++ bad.type)
        ∈ (applyCutsLoop s (pre ++ bad :: post)).2 := by
  induction pre generalizing s with
  | nil =>
    simp only [List.nil_append, applyCutsLoop]
    rw [if_neg h1, if_neg h2]
    exact ⟨rfl, List.mem_cons_self _ _⟩
  | cons c pre ih =>
    simp only [List.cons_append, applyCutsLoop]
    by_cases hc : c.type = "circular"
    · simp only [if_pos hc]
      refine ⟨(ih _).1, List.mem_append_right _ (ih _).2⟩
    · by_cases hr : c.type = "rectangular"
      · simp only [if_neg hc, if_pos hr]
        refine ⟨(ih _).1, List.mem_append_right _ (ih _).2⟩
      · simp only [if_neg hc, if_neg hr]
        exact ⟨(ih _).1, List.mem_cons_of_mem _ (ih _).2⟩

/-- C4: an entry with an unrecognized type in the middle of the cut
list does not abort evaluation: the diagnostic is logged, the entry is
skipped, and the resulting mesh equals the one obtained from the list
with that entry removed (all cuts before and after it still applied). -/
theorem C4_unrecognized_skipped (panel : PanelConfig) (pre post : List CutConfig)
    (bad : CutConfig) (h1 : bad.type ≠ "circular") (h2 : bad.type ≠ "rectangular") :
    (applyCuts { panel := panel, cuts := pre ++ bad :: post }).1
      = (applyCuts { panel := panel, cuts := pre ++ post }).1
    ∧ ("Type de découpe non reconnu: " ++ bad.type)
        ∈ (applyCuts { panel := panel, cuts := pre ++ bad :: post }).2 := by
  have h := applyCutsLoop_skips_unrecognized pre
    (CSGSolid.brush (createPanelGeometry panel).1) post bad h1 h2
  constructor
  · simp only [applyCuts]
    rw [h.1]
  · simp only [applyCuts]
    exact List.mem_append_right _ h.2

/-- Witness for C4_unrecognized_skipped with the spec's scenario kind
"unknown_kind" as the single cut entry. -/
theorem C4_unrecognized_skipped_witness :
    (applyCuts { panel := {}, cuts := [{ type := "unknown_kind" }] }).1
      = (applyCuts { panel := {}, cuts := [] }).1
    ∧ "Type de découpe non reconnu: unknown_kind"
        ∈ (applyCuts { panel := {}, cuts := [{ type := "unknown_kind" }] }).2 := by
  simpa using
    C4_unrecognized_skipped {} [] [] { type := "unknown_kind" } (by decide) (by decide)

/-- C5: the display material is `materials[id] || materials.pine`: an
id absent from the table yields the default pine colour 0xdeb887, and a
present id yields that material's colour. -/
theorem C5_material_resolution (cfg : PanelCSGConfig) :
    (materials cfg.panel.material = none → (applyCuts cfg).1.color = 0xdeb887)
    ∧ ∀ m, materials cfg.panel.material = some m → (applyCuts cfg).1.color = m.color := by
  constructor
  · intro h
    simp [applyCuts, h, pineMaterial]
  · intro m h
    simp [applyCuts, h]

/-- Witness for C5_material_resolution: the unresolved id "granite"
gets the pine colour, the resolved id "oak" gets the oak colour. -/
theorem C5_material_resolution_witness :
    (applyCuts { panel := { material := "granite" }, cuts := [] }).1.color = 0xdeb887
    ∧ (applyCuts { panel := { material := "oak" }, cuts := [] }).1.color = 0x8b4513 :=
  ⟨(C5_material_resolution _).1 (by decide),
   (C5_material_resolution _).2 ⟨0x8b4513, "Chêne"⟩ (by decide)⟩

/-- C6: for radius ≤ 0 the cylinder generator warns and returns the
full default cylinder CylinderGeometry(10, 10, 20, 32), ignoring
whatever depth and segments the caller supplied. -/
theorem C6_radius_fallback (p : CutParams) (r : ℚ)
    (hr : p.radius = some r) (hle : r ≤ 0) :
    createCylinderGeometryForHole p
      = (CylinderGeometry 10 10 20 32, ["Le rayon doit être positif"]) := by
  simp only [createCylinderGeometryForHole, hr, Option.getD_some]
  rw [if_pos hle]

/-- Witness for C6_radius_fallback at radius=0 with valid depth=15 and
segments=24, which are nevertheless ignored. -/
theorem C6_radius_fallback_witness :
    createCylinderGeometryForHole { radius := some 0, depth := some 15, segments := some 24 }
      = (CylinderGeometry 10 10 20 32, ["Le rayon doit être positif"]) :=
  C6_radius_fallback _ 0 rfl (by decide)

/-- C7: whenever at least one of the rectangular cut's dimensions is
non-positive (after ES defaulting; the defaults 50/30/20 are positive,
so this is equivalent to some supplied dimension being non-positive),
the generator warns and returns the single fixed fallback box
BoxGeometry(50, 20, 30), regardless of which or how many dimensions
were invalid. -/
theorem C7_rect_fallback (p : CutParams) (h : rectInvalid p) :
    createBoxGeometryForRectangularCut p
      = (BoxGeometry 50 20 30, ["Les dimensions de la découpe doivent être positives"]) := by
  have h' : p.length.getD 50 ≤ 0 ∨ p.width.getD 30 ≤ 0 ∨ p.depth.getD 20 ≤ 0 := h
  simp only [createBoxGeometryForRectangularCut]
  rw [if_pos h']

/-- Witness for C7_rect_fallback at length=-5 with valid width/depth. -/
theorem C7_rect_fallback_witness :
    createBoxGeometryForRectangularCut { length := some (-5), width := some 10, depth := some 10 }
      = (BoxGeometry 50 20 30, ["Les dimensions de la découpe doivent être positives"]) :=
  C7_rect_fallback _ (by decide)

/-- C8: for positive length, width, thickness the panel generator's
solid carries a computed bounding box whose X extent is the length,
whose Y (up axis) extent is the thickness, and whose Z extent is the
width. -/
theorem C8_panel_bbox_dims (l w t : ℚ) (hl : 0 < l) (hw : 0 < w) (ht : 0 < t) :
    ∃ bb : Box3,
      (createPanelGeometry { length := some l, width := some w, thickness := some t }).1.boundingBox
        = some bb
      ∧ bb.maxX - bb.minX = l ∧ bb.maxY - bb.minY = t ∧ bb.maxZ - bb.minZ = w := by
  refine ⟨(GeometryKind.box l t w).aabb, ?_, ?_, ?_, ?_⟩
  · simp only [createPanelGeometry, Option.getD_some]
    rw [if_neg (by simp only [not_or, not_le]; exact ⟨hl, hw, ht⟩)]
    rfl
  · simp [GeometryKind.aabb]
  · simp [GeometryKind.aabb]
  · simp [GeometryKind.aabb]

/-- Witness for C8_panel_bbox_dims at (length, width, thickness) =
(3, 4, 5). -/
theorem C8_panel_bbox_dims_witness :
    ∃ bb : Box3,
      (createPanelGeometry { length := some 3, width := some 4, thickness := some 5 }).1.boundingBox
        = some bb
      ∧ bb.maxX - bb.minX = 3 ∧ bb.maxY - bb.minY = 5 ∧ bb.maxZ - bb.minZ = 4 :=
  C8_panel_bbox_dims 3 4 5 (by decide) (by decide) (by decide)

/-- C9: each generator is total on its params record — it always
returns a constructed solid of the expected species (never null, never
an exception; the embedding of the source is a total function), and any
invalid input additionally emits at least one warning, i.e. degrades to
a warned fallback instead of an error. -/
theorem C9_generators_total (pp : PanelConfig) (cp rp : CutParams) :
    ((createPanelGeometry pp).1.isBox = true
      ∧ (panelInvalid pp → (createPanelGeometry pp).2 ≠ []))
    ∧ ((createCylinderGeometryForHole cp).1.isCylinder = true
      ∧ (cylinderInvalid cp → (createCylinderGeometryForHole cp).2 ≠ []))
    ∧ ((createBoxGeometryForRectangularCut rp).1.isBox = true
      ∧ (rectInvalid rp → (createBoxGeometryForRectangularCut rp).2 ≠ [])) := by
  refine ⟨?_, ?_, ?_⟩
  · simp only [createPanelGeometry, panelInvalid]
    split <;>
      simp_all [withBounds, computeBoundingBox, computeBoundingSphere, BoxGeometry,
        BufferGeometry.isBox]
  · simp only [createCylinderGeometryForHole, cylinderInvalid]
    split
    · simp_all [CylinderGeometry, BufferGeometry.isCylinder]
    · split
      · simp_all [CylinderGeometry, BufferGeometry.isCylinder]
      · split <;>
          simp_all [withBounds, computeBoundingBox, computeBoundingSphere, CylinderGeometry,
            BufferGeometry.isCylinder]
  · simp only [createBoxGeometryForRectangularCut, rectInvalid]
    split <;>
      simp_all [withBounds, computeBoundingBox, computeBoundingSphere, BoxGeometry,
        BufferGeometry.isBox]

/-- Witness for C9_generators_total at one invalid record per
generator. -/
theorem C9_generators_total_witness :
    (createPanelGeometry { length := some (-1) }).1.isBox = true
    ∧ (createPanelGeometry { length := some (-1) }).2 ≠ []
    ∧ (createCylinderGeometryForHole { radius := some (-2) }).1.isCylinder = true
    ∧ (createCylinderGeometryForHole { radius := some (-2) }).2 ≠ []
    ∧ (createBoxGeometryForRectangularCut { depth := some 0 }).1.isBox = true
    ∧ (createBoxGeometryForRectangularCut { depth := some 0 }).2 ≠ [] :=
  ⟨(C9_generators_total { length := some (-1) } { radius := some (-2) } { depth := some 0 }).1.1,
   (C9_generators_total { length := some (-1) } { radius := some (-2) } { depth := some 0 }).1.2
     (by decide),
   (C9_generators_total { length := some (-1) } { radius := some (-2) } { depth := some 0 }).2.1.1,
   (C9_generators_total { length := some (-1) } { radius := some (-2) } { depth := some 0 }).2.1.2
     (by decide),
   (C9_generators_total { length := some (-1) } { radius := some (-2) } { depth := some 0 }).2.2.1,
   (C9_generators_total { length := some (-1) } { radius := some (-2) } { depth := some 0 }).2.2.2
     (by decide)⟩

/-- C10, as stated, is false: a record that omits width and thickness
but supplies a negative length takes the warned fallback branch, not
the silent normal construction path — a diagnostic is emitted and the
returned box lacks bounding volumes. -/
theorem C10_counterexample_partial_omission :
    ({ length := some (-1) } : PanelConfig).width = none
    ∧ ({ length := some (-1) } : PanelConfig).thickness = none
    ∧ (createPanelGeometry { length := some (-1) }).2 ≠ []
    ∧ (createPanelGeometry { length := some (-1) }).1.boundingBox = none := by
  decide

/-- C10 (amended): for every params record all of whose supplied
dimensions are positive, the omitted fields are silently substituted
with the defaults length=200, width=100, thickness=18, no diagnostic is
emitted, and the normal construction path runs (BoxGeometry(length,
thickness, width) with bounding volumes computed). -/
theorem C10_omitted_defaults (p : PanelConfig)
    (hl : ∀ v, p.length = some v → 0 < v)
    (hw : ∀ v, p.width = some v → 0 < v)
    (ht : ∀ v, p.thickness = some v → 0 < v) :
    createPanelGeometry p
      = (withBounds (BoxGeometry (p.length.getD 200) (p.thickness.getD 18) (p.width.getD 100)),
         []) := by
  have h1 : 0 < p.length.getD 200 := by
    cases hv : p.length with
    | none => norm_num
    | some v => simpa using hl v hv
  have h2 : 0 < p.width.getD 100 := by
    cases hv : p.width with
    | none => norm_num
    | some v => simpa using hw v hv
  have h3 : 0 < p.thickness.getD 18 := by
    cases hv : p.thickness with
    | none => norm_num
    | some v => simpa using ht v hv
  simp only [createPanelGeometry]
  rw [if_neg (by simp only [not_or, not_le]; exact ⟨h1, h2, h3⟩)]

/-- Witness for C10_omitted_defaults at the empty record: the result
has the constructor dimensions (200, 18, 100) and computed bounding
volumes, reached with no warning. -/
theorem C10_omitted_defaults_witness :
    createPanelGeometry {} = (withBounds (BoxGeometry 200 18 100), [])
    ∧ (createPanelGeometry {}).1.boundingBox.isSome = true
    ∧ (createPanelGeometry {}).1.boundingSphere.isSome = true := by
  have h := C10_omitted_defaults {} (fun _ hv => nomatch hv) (fun _ hv => nomatch hv)
    (fun _ hv => nomatch hv)
  refine ⟨by simpa using h, ?_, ?_⟩ <;>
    simp [h, withBounds, computeBoundingBox, computeBoundingSphere]

end ThreeCSG
